import Mathlib

/-!
# Verification of the pg-structure catalog assembly core

This file embeds the assembly pipeline of `src/dist/main.js` (schema discovery,
type / entity / column / index / constraint / function / trigger phases, the
`pgStructure` entrypoint and `deserialize`), the legacy `Constraint` class of
`src/unnamed/part_000`, and the `UniqueConstraint` class of
`src/unnamed/part_001` as executable Lean definitions, and proves the frozen
claims about them.

Modelling conventions:
* JS objects that are mutated in place (`xs.push(v)`) become explicit state
  passing; the shared-pointer heap is flattened: objects refer to each other
  by `oid`, and a mutation of "the object returned by `getMaybe`" becomes an
  update of the *first* list element matching the key, which is exactly the
  element `getMaybe` / `get` of an IndexableArray returns.
* `IndexableArray.get` (which throws `NotFound` on a miss) and other throwing
  operations are modelled in the `Except String` monad; `getMaybe` becomes
  `List.find?`.
* JS `undefined` flowing into a data position becomes `Option.none`.
-/

/-- Generic first-match in-place update: the image of mutating the object
returned by `getMaybe p` inside its containing array. -/
def updateFirstBy (p : α → Bool) (f : α → α) : List α → List α
  | [] => []
  | a :: as => if p a then f a :: as else a :: updateFirstBy p f as

/-- Concatenation of a projected list over a list of containers (the flattened
view a `Db` getter such as `db.tables` offers over the per-schema arrays). -/
def listJoinMap (proj : σ → List α) : List σ → List α
  | [] => []
  | s :: ss => proj s ++ listJoinMap proj ss

/-- A column of an entity or composite type (`src/pg-structure/column`):
the claims only need its name and PostgreSQL attribute number. -/
structure ColumnM where
  name : String
  attributeNumber : Nat
deriving DecidableEq, Repr

/-- One slot of `index.columnsAndExpressions`: either a resolved column or a
non-column index expression string (`src/dist/main.js`, `addIndexes`). -/
inductive ColumnOrExpression where
  | column (c : ColumnM)
  | expression (e : String)
deriving DecidableEq, Repr

/-- An index (`src/pg-structure/index`): parent entity is kept as its oid
(pointer flattening of `index.parent`). -/
structure IndexM where
  oid : Nat
  tableOid : Nat
  name : String
  columnsAndExpressions : List (Option ColumnOrExpression)
deriving DecidableEq, Repr

/-- Modelled from the spec: the `Index.columns` getter is not under `src/`;
spec section 3 says an index position holds either a Column or an expression
and that constraint columns are "derived from" the index, so `columns` is the
ordered list of the Column entries of `columnsAndExpressions`. -/
def IndexM.columns (i : IndexM) : List ColumnM :=
  i.columnsAndExpressions.filterMap (fun s =>
    match s with
    | some (ColumnOrExpression.column c) => some c
    | _ => none)

/-- A check constraint's own data (name and expression). -/
structure CheckConstraintM where
  name : String
  expression : String
deriving DecidableEq, Repr

/-- A foreign key as built by `addConstraints` in `src/dist/main.js`:
`referencedTable` is derived from `index.tableOid` (pointer flattening of
`foreignKey.referencedTable`, which is the index's parent table). -/
structure ForeignKeyM where
  name : String
  tableOid : Nat
  index : IndexM
  columns : List ColumnM
  onUpdate : Option String
  onDelete : Option String
  matchType : Option String
deriving DecidableEq, Repr

/-- The five constraint variants dispatched by `addConstraints`; `p`, `u`, `x`
store the (possibly unresolved) index exactly as the JS constructors receive
`index` from `getMaybe`. -/
inductive ConstraintM where
  | primaryKey (name : String) (index : Option IndexM)
  | uniqueConstraint (name : String) (index : Option IndexM)
  | exclusionConstraint (name : String) (index : Option IndexM)
  | checkConstraint (name : String) (expression : String)
  | foreignKey (fk : ForeignKeyM)
deriving DecidableEq, Repr

/-- The `UniqueConstraint.columns` getter of `src/unnamed/part_001`:
`get columns() { return this.index.columns; }` — it reads through to the
backing index on every access and stores no column list of its own.  On a
non-unique constraint, or when the stored index is `undefined`, the read has
no value. -/
def ConstraintM.uniqueColumns : ConstraintM → Option (List ColumnM)
  | ConstraintM.uniqueConstraint _ (some i) => some i.columns
  | _ => none

/-- A trigger; its function reference is kept as the function's oid. -/
structure TriggerM where
  name : String
  functionOid : Nat
deriving DecidableEq, Repr

/-- A function (normal / procedure / aggregate / window, by kind letter). -/
structure FunctionM where
  oid : Nat
  name : String
  kind : Char
deriving DecidableEq, Repr

/-- A PostgreSQL type as built by `addTypes` (`src/dist/main.js`): the fields
written by `{ ...row, ...builtinTypeData, schema, sqlType: row.sqlType }`. -/
structure TypeM where
  oid : Nat
  classOid : Nat
  schemaOid : Nat
  kind : Char
  name : String
  internalName : Option String
  shortName : Option String
  hasLength : Bool
  hasPrecision : Bool
  hasScale : Bool
  sqlType : Option String
  columns : List ColumnM
  checkConstraints : List CheckConstraintM
deriving DecidableEq, Repr

/-- An entity (table / view / materialized view / sequence); which per-schema
array it lives in records its kind. -/
structure EntityM where
  oid : Nat
  name : String
  columns : List ColumnM
  indexes : List IndexM
  constraints : List ConstraintM
  triggers : List TriggerM
  foreignKeysToThis : List ForeignKeyM
deriving DecidableEq, Repr

/-- A schema with the per-kind collections `addEntities`, `addTypes` and
`addFunctions` push into. -/
structure SchemaM where
  oid : Nat
  name : String
  tables : List EntityM
  views : List EntityM
  materializedViews : List EntityM
  sequences : List EntityM
  typesIncludingEntities : List TypeM
  normalFunctions : List FunctionM
  procedures : List FunctionM
  aggregateFunctions : List FunctionM
  windowFunctions : List FunctionM
deriving DecidableEq, Repr

/-- All entities of one schema (tables, views, materialized views, sequences). -/
def SchemaM.entities (s : SchemaM) : List EntityM :=
  s.tables ++ s.views ++ s.materializedViews ++ s.sequences

/-- All functions of one schema. -/
def SchemaM.functionList (s : SchemaM) : List FunctionM :=
  s.normalFunctions ++ s.procedures ++ s.aggregateFunctions ++ s.windowFunctions

/-- The mutable object graph rooted at `Db`: user schemas and system schemas
(`pg_catalog`). -/
structure DbState where
  schemas : List SchemaM
  systemSchemas : List SchemaM
deriving DecidableEq, Repr

/-- Modelled from the spec: the `db.tables` getter is not under `src/`; it is
the flattened view of the user schemas' `tables` arrays. -/
def DbState.tables (db : DbState) : List EntityM :=
  listJoinMap (fun s => s.tables) db.schemas

/-- Modelled from the spec: the `db.entities` getter (flattened view of every
schema's tables, views, materialized views and sequences). -/
def DbState.entities (db : DbState) : List EntityM :=
  listJoinMap SchemaM.entities db.schemas

/-- Modelled from the spec: the `db.indexes` getter (every entity's indexes). -/
def DbState.indexes (db : DbState) : List IndexM :=
  listJoinMap (fun e => e.indexes) db.entities

/-- Modelled from the spec: the `db.typesIncludingEntities` getter — all
types of user and system schemas (`addTypes` places system types under
`pg_catalog`, and user objects may reference them). -/
def DbState.typesIncludingEntities (db : DbState) : List TypeM :=
  listJoinMap (fun s => s.typesIncludingEntities) (db.schemas ++ db.systemSchemas)

/-- Modelled from the spec: the `db.functions` getter. -/
def DbState.functionList (db : DbState) : List FunctionM :=
  listJoinMap SchemaM.functionList db.schemas

/-- `db.tables.getMaybe(oid, { key: "oid" })`. -/
def DbState.lookupTable (db : DbState) (oid : Nat) : Option EntityM :=
  db.tables.find? (fun t => t.oid == oid)

/-- `db.indexes.getMaybe(oid, { key: "oid" })`. -/
def DbState.lookupIndex (db : DbState) (oid : Nat) : Option IndexM :=
  db.indexes.find? (fun i => i.oid == oid)

/-- `db.typesIncludingEntities.getMaybe(oid, { key: "oid" })`. -/
def DbState.lookupType (db : DbState) (oid : Nat) : Option TypeM :=
  db.typesIncludingEntities.find? (fun t => t.oid == oid)

/-- `db.entities.getMaybe(oid, { key: "oid" })`. -/
def DbState.lookupEntity (db : DbState) (oid : Nat) : Option EntityM :=
  db.entities.find? (fun e => e.oid == oid)

/-- `db.schemas.getMaybe(oid, { key: "oid" })` (user schemas). -/
def DbState.lookupSchema (db : DbState) (oid : Nat) : Option SchemaM :=
  db.schemas.find? (fun s => s.oid == oid)

/-- `db.systemSchemas.getMaybe(oid, { key: "oid" })`. -/
def DbState.lookupSystemSchema (db : DbState) (oid : Nat) : Option SchemaM :=
  db.systemSchemas.find? (fun s => s.oid == oid)

/-- `db.functions.getMaybe(oid, { key: "oid" })`. -/
def DbState.lookupFunction (db : DbState) (oid : Nat) : Option FunctionM :=
  db.functionList.find? (fun f => f.oid == oid)

/-- Mutating the table object `db.tables.getMaybe(oid)` returns: update the
first table with that oid, in the flattened schema order. -/
def DbState.updateTableFirst (db : DbState) (oid : Nat) (f : EntityM → EntityM) : DbState :=
  { db with
    schemas :=
      updateFirstBy (fun s => s.tables.any (fun t => t.oid == oid))
        (fun s => { s with tables := updateFirstBy (fun t => t.oid == oid) f s.tables })
        db.schemas }

/-- In-schema part of `DbState.updateEntityFirst`. -/
def SchemaM.updateEntity (s : SchemaM) (p : EntityM → Bool) (f : EntityM → EntityM) : SchemaM :=
  if s.tables.any p then { s with tables := updateFirstBy p f s.tables }
  else if s.views.any p then { s with views := updateFirstBy p f s.views }
  else if s.materializedViews.any p then
    { s with materializedViews := updateFirstBy p f s.materializedViews }
  else { s with sequences := updateFirstBy p f s.sequences }

/-- Mutating the entity object `db.entities.getMaybe` returns. -/
def DbState.updateEntityFirst (db : DbState) (p : EntityM → Bool) (f : EntityM → EntityM) : DbState :=
  { db with
    schemas :=
      updateFirstBy (fun s => (SchemaM.entities s).any p) (fun s => s.updateEntity p f) db.schemas }

/-- Mutating the type object `db.typesIncludingEntities.getMaybe` returns
(user schemas come first in the flattened view, then system schemas). -/
def DbState.updateTypeFirst (db : DbState) (p : TypeM → Bool) (f : TypeM → TypeM) : DbState :=
  if db.schemas.any (fun s => s.typesIncludingEntities.any p) then
    { db with
      schemas :=
        updateFirstBy (fun s => s.typesIncludingEntities.any p)
          (fun s => { s with typesIncludingEntities := updateFirstBy p f s.typesIncludingEntities })
          db.schemas }
  else
    { db with
      systemSchemas :=
        updateFirstBy (fun s => s.typesIncludingEntities.any p)
          (fun s => { s with typesIncludingEntities := updateFirstBy p f s.typesIncludingEntities })
          db.systemSchemas }

/-- A row of the schema-discovery query (`oid`, `nspname AS name`). -/
structure SchemaRow where
  oid : Nat
  name : String
deriving DecidableEq, Repr

/-- A row of the `type` catalog query, with the fields `addTypes` reads. -/
structure TypeRow where
  oid : Nat
  classOid : Nat
  schemaOid : Nat
  kind : Char
  name : String
  sqlType : Option String
deriving DecidableEq, Repr

/-- A row of the `entity` catalog query, with the fields `addEntities` reads. -/
structure EntityRow where
  oid : Nat
  schemaOid : Nat
  kind : Char
  name : String
deriving DecidableEq, Repr

/-- A row of the `column` catalog query, with the fields `addColumns` reads. -/
structure ColumnRow where
  parentOid : Nat
  parentKind : Char
  name : String
  attributeNumber : Nat
deriving DecidableEq, Repr

/-- A row of the `index` catalog query, with the fields `addIndexes` reads. -/
structure IndexRow where
  oid : Nat
  tableOid : Nat
  name : String
  indexExpressions : List String
  columnPositions : List Nat
deriving DecidableEq, Repr

/-- A row of the `constraint` catalog query, with the fields `addConstraints`
reads. -/
structure ConstraintRow where
  name : String
  kind : Char
  tableOid : Nat
  indexOid : Nat
  typeOid : Nat
  constrainedColumnPositions : List Nat
  onUpdate : Char
  onDelete : Char
  matchType : Char
  checkConstraintExpression : String
deriving DecidableEq, Repr

/-- A row of the `function` catalog query, with the fields `addFunctions`
reads. -/
structure FunctionRow where
  oid : Nat
  schemaOid : Nat
  kind : Char
  name : String
deriving DecidableEq, Repr

/-- A row of the `trigger` catalog query, with the fields `addTriggers` reads. -/
structure TriggerRow where
  entityOid : Nat
  functionOid : Nat
  name : String
deriving DecidableEq, Repr

/-- `actionLetterMap` of `addConstraints` (`src/dist/main.js`); an unmapped
letter yields `undefined` in JS, here `none`. -/
def actionLetterMap : Char → Option String
  | 'a' => some "NO ACTION"
  | 'r' => some "RESTRICT"
  | 'c' => some "CASCADE"
  | 'n' => some "SET NULL"
  | 'd' => some "SET DEFAULT"
  | _ => none

/-- `matchTypeLetterMap` of `addConstraints` (`src/dist/main.js`). -/
def matchTypeLetterMap : Char → Option String
  | 'f' => some "FULL"
  | 'p' => some "PARTIAL"
  | 's' => some "SIMPLE"
  | _ => none

/-- One entry of the `builtinTypeAliases` table of `src/dist/main.js`. -/
structure BuiltinAlias where
  name : Option String := none
  shortName : Option String := none
  internalName : Option String := none
  hasLength : Bool := false
  hasPrecision : Bool := false
  hasScale : Bool := false
deriving DecidableEq, Repr

/-- The `builtinTypeAliases` table of `src/dist/main.js`. -/
def builtinTypeAliases : String → Option BuiltinAlias
  | "int2" => some { name := some "smallint" }
  | "int4" => some { name := some "integer", shortName := some "int" }
  | "int8" => some { name := some "bigint" }
  | "numeric" => some { internalName := some "decimal", hasPrecision := true, hasScale := true }
  | "float4" => some { name := some "real" }
  | "float8" => some { name := some "double precision" }
  | "varchar" => some { name := some "character varying", hasLength := true }
  | "char" => some { name := some "character", hasLength := true }
  | "timestamp" => some { name := some "timestamp without time zone", hasPrecision := true }
  | "timestamptz" => some { name := some "timestamp with time zone", hasPrecision := true }
  | "time" => some { name := some "time without time zone", hasPrecision := true }
  | "timetz" => some { name := some "time with time zone", hasPrecision := true }
  | "interval" => some { hasPrecision := true }
  | "bool" => some { name := some "boolean" }
  | "bit" => some { hasLength := true }
  | "varbit" => some { name := some "bit varying", hasLength := true }
  | _ => none

/-- The type value built at `src/dist/main.js` line 145-147: the spread
`{ ...row, ...(builtinTypeAliases[row.name] ? { internalName: row.name,
...builtinTypeAliases[row.name] } : {}), schema, sqlType: row.sqlType }`. -/
def mkType (row : TypeRow) : TypeM :=
  match builtinTypeAliases row.name with
  | none =>
      { oid := row.oid, classOid := row.classOid, schemaOid := row.schemaOid, kind := row.kind,
        name := row.name, internalName := none, shortName := none,
        hasLength := false, hasPrecision := false, hasScale := false,
        sqlType := row.sqlType, columns := [], checkConstraints := [] }
  | some a =>
      { oid := row.oid, classOid := row.classOid, schemaOid := row.schemaOid, kind := row.kind,
        name := a.name.getD row.name, internalName := some (a.internalName.getD row.name),
        shortName := a.shortName,
        hasLength := a.hasLength, hasPrecision := a.hasPrecision, hasScale := a.hasScale,
        sqlType := row.sqlType, columns := [], checkConstraints := [] }

/-- A fresh schema object (`new Schema({ ...row, db })`). -/
def mkSchema (row : SchemaRow) : SchemaM :=
  { oid := row.oid, name := row.name, tables := [], views := [], materializedViews := [],
    sequences := [], typesIncludingEntities := [], normalFunctions := [], procedures := [],
    aggregateFunctions := [], windowFunctions := [] }

/-- `addSchemas` (`src/dist/main.js`): push one user schema per row. -/
def addSchemas (db : DbState) (rows : List SchemaRow) : DbState :=
  { db with schemas := db.schemas ++ rows.map mkSchema }

/-- `addSystemSchemas` (`src/dist/main.js`): push one system schema per row. -/
def addSystemSchemas (db : DbState) (rows : List SchemaRow) : DbState :=
  { db with systemSchemas := db.systemSchemas ++ rows.map mkSchema }

/-- The type-kind dispatch table `typeKinds` of `addTypes` has exactly the
keys `d e b c r p m`; `new typeKinds[kind]` on any other letter is a JS
`TypeError`. -/
def typeKindsKnown (k : Char) : Bool :=
  k == 'd' || k == 'e' || k == 'b' || k == 'c' || k == 'r' || k == 'p' || k == 'm'

/-- One iteration of `addTypes` (`src/dist/main.js` lines 143-149): resolve the
schema via `db.systemSchemas.getMaybe(row.schemaOid) || db.schemas.get(row.schemaOid)`
(the throwing `get` makes absence from both fatal), then push the new type onto
that schema's `typesIncludingEntities`. -/
def addTypeRow (db : DbState) (row : TypeRow) : Except String DbState :=
  match db.lookupSystemSchema row.schemaOid with
  | some _ =>
      if typeKindsKnown row.kind then
        Except.ok
          { db with
            systemSchemas :=
              updateFirstBy (fun s => s.oid == row.schemaOid)
                (fun s => { s with typesIncludingEntities := s.typesIncludingEntities ++ [mkType row] })
                db.systemSchemas }
      else Except.error "TypeError: typeKinds has no entry for kind"
  | none =>
      match db.lookupSchema row.schemaOid with
      | none => Except.error "NotFound: schema of type row"
      | some _ =>
          if typeKindsKnown row.kind then
            Except.ok
              { db with
                schemas :=
                  updateFirstBy (fun s => s.oid == row.schemaOid)
                    (fun s => { s with typesIncludingEntities := s.typesIncludingEntities ++ [mkType row] })
                    db.schemas }
          else Except.error "TypeError: typeKinds has no entry for kind"

/-- `addTypes` over all rows. -/
def addTypes (db : DbState) (rows : List TypeRow) : Except String DbState :=
  rows.foldlM addTypeRow db

/-- A fresh entity object with empty collections. -/
def mkEntity (row : EntityRow) : EntityM :=
  { oid := row.oid, name := row.name, columns := [], indexes := [], constraints := [],
    triggers := [], foreignKeysToThis := [] }

/-- One iteration of `addEntities` (`src/dist/main.js` lines 159-170):
`db.schemas.get(row.schemaOid)` is fatal on a miss; kinds `r`/`p` go to
`schema.tables`, `v` to `views`, `m` to `materializedViews`, `S` to
`sequences`, anything else is ignored. -/
def addEntityRow (db : DbState) (row : EntityRow) : Except String DbState :=
  match db.lookupSchema row.schemaOid with
  | none => Except.error "NotFound: schema of entity row"
  | some _ =>
      if row.kind == 'r' || row.kind == 'p' then
        Except.ok
          { db with
            schemas :=
              updateFirstBy (fun s => s.oid == row.schemaOid)
                (fun s => { s with tables := s.tables ++ [mkEntity row] }) db.schemas }
      else if row.kind == 'v' then
        Except.ok
          { db with
            schemas :=
              updateFirstBy (fun s => s.oid == row.schemaOid)
                (fun s => { s with views := s.views ++ [mkEntity row] }) db.schemas }
      else if row.kind == 'm' then
        Except.ok
          { db with
            schemas :=
              updateFirstBy (fun s => s.oid == row.schemaOid)
                (fun s => { s with materializedViews := s.materializedViews ++ [mkEntity row] }) db.schemas }
      else if row.kind == 'S' then
        Except.ok
          { db with
            schemas :=
              updateFirstBy (fun s => s.oid == row.schemaOid)
                (fun s => { s with sequences := s.sequences ++ [mkEntity row] }) db.schemas }
      else Except.ok db

/-- `addEntities` over all rows. -/
def addEntities (db : DbState) (rows : List EntityRow) : Except String DbState :=
  rows.foldlM addEntityRow db

/-- One iteration of `addColumns` (`src/dist/main.js` lines 180-185): the
parent is a composite type (`parentKind === "c"`, keyed by `classOid`) or an
entity (keyed by `oid`); `get` is fatal on a miss; the column is pushed onto
`parent.columns`. -/
def addColumnRow (db : DbState) (row : ColumnRow) : Except String DbState :=
  if row.parentKind == 'c' then
    match db.typesIncludingEntities.find? (fun t => t.classOid == row.parentOid) with
    | none => Except.error "NotFound: composite type parent of column row"
    | some _ =>
        Except.ok
          (db.updateTypeFirst (fun t => t.classOid == row.parentOid)
            (fun t => { t with columns := t.columns ++ [ColumnM.mk row.name row.attributeNumber] }))
  else
    match db.lookupEntity row.parentOid with
    | none => Except.error "NotFound: entity parent of column row"
    | some _ =>
        Except.ok
          (db.updateEntityFirst (fun e => e.oid == row.parentOid)
            (fun e => { e with columns := e.columns ++ [ColumnM.mk row.name row.attributeNumber] }))

/-- `addColumns` over all rows. -/
def addColumns (db : DbState) (rows : List ColumnRow) : Except String DbState :=
  rows.foldlM addColumnRow db

/-- The `columnsAndExpressions` construction of `addIndexes`
(`src/dist/main.js` lines 198-203): walk `columnPositions`; a position > 0
pushes `parent.columns.find(c => c.attributeNumber === position)` (JS
`undefined`, i.e. `none`, when absent); a position of 0 pushes
`indexExpressions.shift()` (consuming the copied expression list from the
front, `none` once it is empty). -/
def buildColumnsAndExpressions (cols : List ColumnM) :
    List Nat → List String → List (Option ColumnOrExpression)
  | [], _ => []
  | p :: ps, es =>
      if p > 0 then
        ((cols.find? (fun c => c.attributeNumber == p)).map ColumnOrExpression.column)
          :: buildColumnsAndExpressions cols ps es
      else
        match es with
        | [] => none :: buildColumnsAndExpressions cols ps []
        | e :: es' => some (ColumnOrExpression.expression e) :: buildColumnsAndExpressions cols ps es'

/-- One iteration of `addIndexes` (`src/dist/main.js` lines 195-205):
`db.entities.get(row.tableOid)` is fatal on a miss; the index is created, its
`columnsAndExpressions` filled, and it is pushed onto `parent.indexes`. -/
def addIndexRow (db : DbState) (row : IndexRow) : Except String DbState :=
  match db.lookupEntity row.tableOid with
  | none => Except.error "NotFound: parent entity of index row"
  | some parent =>
      Except.ok
        (db.updateEntityFirst (fun e => e.oid == row.tableOid)
          (fun e =>
            { e with
              indexes :=
                e.indexes ++
                  [{ oid := row.oid, tableOid := row.tableOid, name := row.name,
                     columnsAndExpressions :=
                       buildColumnsAndExpressions parent.columns row.columnPositions
                         row.indexExpressions }] }))

/-- `addIndexes` over all rows. -/
def addIndexes (db : DbState) (rows : List IndexRow) : Except String DbState :=
  rows.foldlM addIndexRow db

/-- The foreign key object built at `src/dist/main.js` lines 279-287: columns
resolved by attribute number (done separately, since the throwing `get` makes
it fatal), action letters through `actionLetterMap`, match letter through
`matchTypeLetterMap`. -/
def mkForeignKey (row : ConstraintRow) (index : IndexM) (cols : List ColumnM) : ForeignKeyM :=
  { name := row.name, tableOid := row.tableOid, index := index, columns := cols,
    onUpdate := actionLetterMap row.onUpdate, onDelete := actionLetterMap row.onDelete,
    matchType := matchTypeLetterMap row.matchType }

/-- `row.constrainedColumnPositions.map(pos => table.columns.get(pos,
{ key: "attributeNumber" }))` — the `get` throws `NotFound` on a miss. -/
def resolveConstrainedColumns (table : EntityM) (positions : List Nat) :
    Except String (List ColumnM) :=
  positions.mapM (fun pos =>
    match table.columns.find? (fun c => c.attributeNumber == pos) with
    | some c => Except.ok c
    | none => Except.error "NotFound: constrained column by attribute number")

/-- One iteration of `addConstraints` (`src/dist/main.js` lines 261-298).
`table`, `index` and `domain` are all looked up with `getMaybe` up front.  With
a resolved table, the kind letter dispatches the five constraint classes; for a
foreign key an unresolved index returns early (row silently dropped), otherwise
the FK is pushed onto `table.constraints` and onto
`foreignKey.referencedTable.foreignKeysToThis` (the referenced table is the
index's parent; a missing parent table would be a JS `TypeError`).  Without a
table, only kind `c` with a resolved domain adds a domain check constraint;
every other combination falls through silently. -/
def addConstraintRow (db : DbState) (row : ConstraintRow) : Except String DbState :=
  let table? := db.lookupTable row.tableOid
  let index? := db.lookupIndex row.indexOid
  let domain? := db.lookupType row.typeOid
  match table? with
  | some table =>
      match row.kind with
      | 'p' =>
          Except.ok (db.updateTableFirst row.tableOid (fun t =>
            { t with constraints := t.constraints ++ [ConstraintM.primaryKey row.name index?] }))
      | 'u' =>
          Except.ok (db.updateTableFirst row.tableOid (fun t =>
            { t with constraints := t.constraints ++ [ConstraintM.uniqueConstraint row.name index?] }))
      | 'x' =>
          Except.ok (db.updateTableFirst row.tableOid (fun t =>
            { t with constraints := t.constraints ++ [ConstraintM.exclusionConstraint row.name index?] }))
      | 'c' =>
          Except.ok (db.updateTableFirst row.tableOid (fun t =>
            { t with constraints :=
                t.constraints ++ [ConstraintM.checkConstraint row.name row.checkConstraintExpression] }))
      | 'f' =>
          match index? with
          | none => Except.ok db
          | some index =>
              match resolveConstrainedColumns table row.constrainedColumnPositions with
              | Except.error e => Except.error e
              | Except.ok cols =>
                  let fk := mkForeignKey row index cols
                  let db1 := db.updateTableFirst row.tableOid (fun t =>
                    { t with constraints := t.constraints ++ [ConstraintM.foreignKey fk] })
                  match db1.lookupTable index.tableOid with
                  | none => Except.error "TypeError: referenced table of foreign key is missing"
                  | some _ =>
                      Except.ok (db1.updateTableFirst index.tableOid (fun t =>
                        { t with foreignKeysToThis := t.foreignKeysToThis ++ [fk] }))
      | _ => Except.ok db
  | none =>
      match domain? with
      | some _ =>
          if row.kind == 'c' then
            Except.ok (db.updateTypeFirst (fun t => t.oid == row.typeOid) (fun t =>
              { t with checkConstraints :=
                  t.checkConstraints ++ [CheckConstraintM.mk row.name row.checkConstraintExpression] }))
          else Except.ok db
      | none => Except.ok db

/-- `addConstraints` over all rows. -/
def addConstraints (db : DbState) (rows : List ConstraintRow) : Except String DbState :=
  rows.foldlM addConstraintRow db

/-- One iteration of `addFunctions` (`src/dist/main.js` lines 215-226):
`db.schemas.get` is fatal; kinds `f p a w` dispatch the four function
collections, anything else is ignored. -/
def addFunctionRow (db : DbState) (row : FunctionRow) : Except String DbState :=
  match db.lookupSchema row.schemaOid with
  | none => Except.error "NotFound: schema of function row"
  | some _ =>
      let fn : FunctionM := { oid := row.oid, name := row.name, kind := row.kind }
      if row.kind == 'f' then
        Except.ok
          { db with
            schemas :=
              updateFirstBy (fun s => s.oid == row.schemaOid)
                (fun s => { s with normalFunctions := s.normalFunctions ++ [fn] }) db.schemas }
      else if row.kind == 'p' then
        Except.ok
          { db with
            schemas :=
              updateFirstBy (fun s => s.oid == row.schemaOid)
                (fun s => { s with procedures := s.procedures ++ [fn] }) db.schemas }
      else if row.kind == 'a' then
        Except.ok
          { db with
            schemas :=
              updateFirstBy (fun s => s.oid == row.schemaOid)
                (fun s => { s with aggregateFunctions := s.aggregateFunctions ++ [fn] }) db.schemas }
      else if row.kind == 'w' then
        Except.ok
          { db with
            schemas :=
              updateFirstBy (fun s => s.oid == row.schemaOid)
                (fun s => { s with windowFunctions := s.windowFunctions ++ [fn] }) db.schemas }
      else Except.ok db

/-- `addFunctions` over all rows. -/
def addFunctions (db : DbState) (rows : List FunctionRow) : Except String DbState :=
  rows.foldlM addFunctionRow db

/-- One iteration of `addTriggers` (`src/dist/main.js` lines 235-239): entity
and function are both resolved with the throwing `get`; the trigger is pushed
onto `entity.triggers`. -/
def addTriggerRow (db : DbState) (row : TriggerRow) : Except String DbState :=
  match db.lookupEntity row.entityOid with
  | none => Except.error "NotFound: entity of trigger row"
  | some _ =>
      match db.lookupFunction row.functionOid with
      | none => Except.error "NotFound: function of trigger row"
      | some fn =>
          Except.ok
            (db.updateEntityFirst (fun e => e.oid == row.entityOid)
              (fun e => { e with triggers := e.triggers ++ [TriggerM.mk row.name fn.oid] }))

/-- `addTriggers` over all rows. -/
def addTriggers (db : DbState) (rows : List TriggerRow) : Except String DbState :=
  rows.foldlM addTriggerRow db

/-- The 9-tuple of query results in the Assembler's phase order
(`getQueryResultsFromDb`, `src/dist/main.js` lines 313-323). -/
structure QueryResults where
  schemaRows : List SchemaRow
  systemSchemaRows : List SchemaRow
  typeRows : List TypeRow
  entityRows : List EntityRow
  columnRows : List ColumnRow
  indexRows : List IndexRow
  constraintRows : List ConstraintRow
  functionRows : List FunctionRow
  triggerRows : List TriggerRow
deriving DecidableEq, Repr

/-- The empty object graph a fresh `Db` starts with. -/
def emptyDbState : DbState :=
  { schemas := [], systemSchemas := [] }

/-- `addObjects` (`src/dist/main.js` lines 332-342): the fixed-order
nine-phase build over the query results. -/
def addObjects (q : QueryResults) : Except String DbState := do
  let db := addSchemas emptyDbState q.schemaRows
  let db := addSystemSchemas db q.systemSchemaRows
  let db ← addTypes db q.typeRows
  let db ← addEntities db q.entityRows
  let db ← addColumns db q.columnRows
  let db ← addIndexes db q.indexRows
  let db ← addConstraints db q.constraintRows
  let db ← addFunctions db q.functionRows
  let db ← addTriggers db q.triggerRows
  pure db

/-- The top-level `Db` config (`src/dist/main.js` lines 374-379). -/
structure Config where
  commentDataToken : String
  relationNameFunctions : String
  foreignKeyAliasSeparator : String
  foreignKeyAliasTargetFirst : Bool
deriving DecidableEq, Repr

/-- A constructed `Db`: the constructor arguments (name, server version,
config, raw query results, the naming strategy bound by its name — only the
name survives serialization) plus the object graph `addObjects` populates. -/
structure DbM where
  name : String
  serverVersion : String
  config : Config
  queryResults : QueryResults
  namingName : String
  graph : DbState
deriving DecidableEq, Repr

/-- `new Db(...)` followed by `addObjects(db, queryResults)`: the whole build
is a pure function of the constructor inputs. -/
def buildDbFrom (name serverVersion : String) (config : Config) (q : QueryResults)
    (namingName : String) : Except String DbM :=
  match addObjects q with
  | Except.error e => Except.error e
  | Except.ok g =>
      Except.ok
        { name := name, serverVersion := serverVersion, config := config, queryResults := q,
          namingName := namingName, graph := g }

/-- Modelled from the spec: `Db.serialize` is not under `src/`; spec section
4.6 says the snapshot is a single object `{ name, serverVersion, config,
queryResults }` capturing only the raw rows plus top-level config (the JSON
string encoding is abstracted away: `JSON.parse` after `JSON.stringify` is the
identity on this plain data). -/
structure Snapshot where
  name : String
  serverVersion : String
  config : Config
  queryResults : QueryResults
deriving DecidableEq, Repr

/-- Modelled from the spec: the serialized form of a `Db` (see `Snapshot`). -/
def serializeDb (db : DbM) : Snapshot :=
  { name := db.name, serverVersion := db.serverVersion, config := db.config,
    queryResults := db.queryResults }

/-- `deserialize` (`src/dist/main.js` lines 398-403): parse the snapshot,
rebuild `Db` from the stored name, serverVersion, config and queryResults,
re-bind the naming strategy by its stored name
(`getRelationNameFunctions(data.config.relationNameFunctions)` — custom
function objects are not preserved), and replay `addObjects`. -/
def deserialize (s : Snapshot) : Except String DbM :=
  buildDbFrom s.name s.serverVersion s.config s.queryResults s.config.relationNameFunctions

/-- The recognized option keys of `pgStructure` with the defaults applied at
`src/dist/main.js` lines 374-381. -/
structure Options where
  name : Option String := none
  commentDataToken : Option String := none
  relationNameFunctions : Option String := none
  foreignKeyAliasSeparator : Option String := none
  foreignKeyAliasTargetFirst : Option Bool := none
  keepConnection : Bool := false
deriving DecidableEq, Repr

/-- The environment `pgStructure` runs in once `getConnectedPgClient` has
produced a connected client: whether pgStructure itself created the client
(`shouldCloseConnection`), and the outcomes of the two awaited query steps. -/
structure PgRuntime where
  shouldCloseConnection : Bool
  serverVersionResult : Except String String
  queryResultsResult : Except String QueryResults
deriving Repr

/-- `pgStructure` (`src/dist/main.js` lines 367-384) from the point where the
client is connected: query the server version, fetch the nine query results,
build the `Db`, and only then — with no try/finally around any of it — run
`if (!options.keepConnection && shouldCloseConnection) client.end()`.  The
returned boolean records whether `client.end()` was invoked before the
function returned or rethrew. -/
def pgStructureRun (options : Options) (databaseName : String) (rt : PgRuntime) :
    Except String DbM × Bool :=
  match rt.serverVersionResult with
  | Except.error e => (Except.error e, false)
  | Except.ok serverVersion =>
      match rt.queryResultsResult with
      | Except.error e => (Except.error e, false)
      | Except.ok queryResults =>
          let config : Config :=
            { commentDataToken := (options.commentDataToken).getD "pg-structure",
              relationNameFunctions := (options.relationNameFunctions).getD "short",
              foreignKeyAliasSeparator := (options.foreignKeyAliasSeparator).getD ",",
              foreignKeyAliasTargetFirst := (options.foreignKeyAliasTargetFirst).getD false }
          match buildDbFrom ((options.name).getD databaseName) serverVersion config queryResults
              ((options.relationNameFunctions).getD "short") with
          | Except.error e => (Except.error e, false)
          | Except.ok db => (Except.ok db, !options.keepConnection && rt.shouldCloseConnection)

/-- The WHERE clauses and positional parameters `getSchemas`
(`src/dist/main.js` lines 65-83) assembles.  The clause list and the parameter
list are built exactly as in the source: system patterns are appended to the
include list only when `system` is set and the user supplied includes, to the
exclude list when `system` is unset; every include pattern becomes
`nspname LIKE $(i+1)`; every exclude pattern becomes
`nspname NOT LIKE $(i + include.length + 1)`; parameters are pushed in the
same two loops. -/
structure SchemasQuery where
  whereClauses : List String
  parameters : List String
deriving DecidableEq, Repr

/-- See `SchemasQuery`. -/
def getSchemasQuery (includeList excludeList : List String) (system : Bool) : SchemasQuery :=
  let base := ["NOT pg_is_other_temp_schema(oid)", "nspname <> 'pg_toast'"]
  let includedPatterns :=
    includeList ++
      (if system && includeList.length > 0 then ["information\\_schema", "pg\\_%"] else [])
  let excludedPatterns :=
    excludeList ++ (if system then [] else ["information\\_schema", "pg\\_%"])
  let whereInclude :=
    includedPatterns.enum.map (fun pi => "nspname LIKE $" ++ toString (pi.fst + 1))
  let withInclude :=
    base ++
      (if whereInclude.length > 0 then
        ["(" ++ String.intercalate " OR " whereInclude ++ ")"]
      else [])
  let whereExclude :=
    excludedPatterns.enum.map (fun pi =>
      "nspname NOT LIKE $" ++ toString (pi.fst + includeList.length + 1))
  { whereClauses := withInclude ++ whereExclude,
    parameters := includedPatterns ++ excludedPatterns }

/-- Written from the spec's words for the refinement claim about
`columnsAndExpressions`: walking `columnPositions`, a position > 0 contributes
the parent's column with that attribute number, and the k-th zero position
(counting from zero) contributes element k of `indexExpressions`, so
expressions keep their relative order.  `k` counts the zeros already seen. -/
def specCAEAux (cols : List ColumnM) (es : List String) :
    List Nat → Nat → List (Option ColumnOrExpression)
  | [], _ => []
  | p :: ps, k =>
      if p > 0 then
        ((cols.find? (fun c => c.attributeNumber == p)).map ColumnOrExpression.column)
          :: specCAEAux cols es ps k
      else
        ((es.get? k).map ColumnOrExpression.expression) :: specCAEAux cols es ps (k + 1)

/-- Written from the spec's words; see `specCAEAux`. -/
def specColumnsAndExpressions (cols : List ColumnM) (ps : List Nat) (es : List String) :
    List (Option ColumnOrExpression) :=
  specCAEAux cols es ps 0

/-- `allowedActions` of the legacy constraint module (`src/unnamed/part_000`
line 27): note that `SET DEFAULT` is absent. -/
def allowedActions : List String :=
  ["NO ACTION", "CASCADE", "SET NULL", "RESTRICT"]

/-- The joi validation `joi.string().valid(allowedActions)` on the optional
`onUpdate` / `onDelete` arguments of the legacy `Constraint`. -/
def validAction : Option String → Bool
  | none => true
  | some v => allowedActions.contains v

/-- The parts of a legacy `Constraint` the constructor of another constraint
reads through `internalObjectForeignKeys()` / `internalObjectForeignKeysByName()`
(`src/unnamed/part_000` lines 73-74). -/
structure LegacyFkSource where
  foreignKeys : List ColumnM
  foreignKeysByName : List (String × ColumnM)
deriving DecidableEq, Repr

/-- The constructor arguments of the legacy `Constraint`
(`src/unnamed/part_000` lines 33-43); the required object arguments
(`referencesSchema`, `referencesTable`, `table`) carry nothing the claims
read, `through` is modelled by its presence, and the two through-constraints
by the parts read from them. -/
structure LegacyConstraintArgs where
  name : String
  onUpdate : Option String := none
  onDelete : Option String := none
  through : Bool := false
  throughForeignKeyConstraint : Option LegacyFkSource := none
  throughForeignKeyConstraintToSelf : Option LegacyFkSource := none
deriving DecidableEq, Repr

/-- A constructed legacy `Constraint` (its internal attributes object). -/
structure LegacyConstraint where
  name : String
  onUpdate : Option String
  onDelete : Option String
  foreignKeys : List ColumnM
  foreignKeysByName : List (String × ColumnM)
deriving DecidableEq, Repr

/-- The legacy `Constraint` constructor (`src/unnamed/part_000` lines 60-80):
joi validation first (an invalid `onUpdate` / `onDelete` throws); with
`through` set, `foreignKeys` / `foreignKeysByName` are initialized from
`throughForeignKeyConstraintToSelf` (calling its accessors on `undefined`
would be a JS `TypeError`); without `through`, both start empty. -/
def mkLegacyConstraint (args : LegacyConstraintArgs) : Except String LegacyConstraint :=
  if validAction args.onUpdate && validAction args.onDelete then
    if args.through then
      match args.throughForeignKeyConstraintToSelf with
      | none => Except.error "TypeError: throughForeignKeyConstraintToSelf is missing"
      | some src =>
          Except.ok
            { name := args.name, onUpdate := args.onUpdate, onDelete := args.onDelete,
              foreignKeys := src.foreignKeys, foreignKeysByName := src.foreignKeysByName }
    else
      Except.ok
        { name := args.name, onUpdate := args.onUpdate, onDelete := args.onDelete,
          foreignKeys := [], foreignKeysByName := [] }
  else Except.error "validation error"

/-- Whether an `Except` result is a success. -/
def exceptIsOk : Except String LegacyConstraint → Bool
  | Except.ok _ => true
  | Except.error _ => false

/-- A query-result tuple with no rows (the S1 "empty database" seed shape). -/
def emptyQueryResults : QueryResults :=
  { schemaRows := [], systemSchemaRows := [], typeRows := [], entityRows := [],
    columnRows := [], indexRows := [], constraintRows := [], functionRows := [],
    triggerRows := [] }

theorem updateFirstBy_of_any_eq_false (p : α → Bool) (f : α → α) :
    ∀ l : List α, l.any p = false → updateFirstBy p f l = l
  | [], _ => rfl
  | a :: as, h => by
      simp only [List.any_cons, Bool.or_eq_false_iff] at h
      simp only [updateFirstBy, h.1, Bool.false_eq_true, if_false,
        updateFirstBy_of_any_eq_false p f as h.2]

theorem updateFirstBy_append_left (p : α → Bool) (f : α → α) :
    ∀ l₁ l₂ : List α, l₁.any p = true → updateFirstBy p f (l₁ ++ l₂) = updateFirstBy p f l₁ ++ l₂
  | [], _, h => by simp at h
  | a :: as, l₂, h => by
      by_cases hpa : p a = true
      · simp only [List.cons_append, updateFirstBy, hpa, if_true, List.append_eq]
      · simp only [List.any_cons, Bool.or_eq_true] at h
        have has : as.any p = true := h.resolve_left hpa
        simp only [List.cons_append, updateFirstBy, hpa, Bool.false_eq_true, if_false,
          List.append_eq, updateFirstBy_append_left p f as l₂ has]

theorem updateFirstBy_append_right (p : α → Bool) (f : α → α) :
    ∀ l₁ l₂ : List α, l₁.any p = false → updateFirstBy p f (l₁ ++ l₂) = l₁ ++ updateFirstBy p f l₂
  | [], _, _ => rfl
  | a :: as, l₂, h => by
      simp only [List.any_cons, Bool.or_eq_false_iff] at h
      simp only [List.cons_append, updateFirstBy, h.1, Bool.false_eq_true, if_false,
        List.append_eq, updateFirstBy_append_right p f as l₂ h.2]

theorem find?_updateFirstBy_self (p : α → Bool) (f : α → α) (hf : ∀ a, p (f a) = p a) :
    ∀ l : List α, (updateFirstBy p f l).find? p = (l.find? p).map f
  | [] => rfl
  | a :: as => by
      by_cases hpa : p a = true
      · simp only [updateFirstBy, hpa, if_true]
        rw [List.find?_cons_of_pos _ ((hf a).trans hpa), List.find?_cons_of_pos _ hpa]
        rfl
      · have hpa' : ¬ p a = true := hpa
        simp only [updateFirstBy, hpa, Bool.false_eq_true, if_false]
        rw [List.find?_cons_of_neg _ hpa', List.find?_cons_of_neg _ hpa']
        exact find?_updateFirstBy_self p f hf as

theorem find?_updateFirstBy_of_ne (p q : α → Bool) (f : α → α)
    (hpq : ∀ a, p a = true → q a = false) (hqf : ∀ a, q (f a) = q a) :
    ∀ l : List α, (updateFirstBy p f l).find? q = l.find? q
  | [] => rfl
  | a :: as => by
      by_cases hpa : p a = true
      · have hqa : q a = false := hpq a hpa
        have hqfa : ¬ q (f a) = true := by rw [hqf a, hqa]; exact Bool.false_ne_true
        simp only [updateFirstBy, hpa, if_true]
        rw [List.find?_cons_of_neg _ hqfa,
          List.find?_cons_of_neg _ (by rw [hqa]; exact Bool.false_ne_true)]
      · simp only [updateFirstBy, hpa, Bool.false_eq_true, if_false]
        by_cases hqa : q a = true
        · rw [List.find?_cons_of_pos _ hqa, List.find?_cons_of_pos _ hqa]
        · rw [List.find?_cons_of_neg _ hqa, List.find?_cons_of_neg _ hqa]
          exact find?_updateFirstBy_of_ne p q f hpq hqf as

theorem listJoinMap_append (proj : σ → List α) :
    ∀ l₁ l₂ : List σ, listJoinMap proj (l₁ ++ l₂) = listJoinMap proj l₁ ++ listJoinMap proj l₂
  | [], _ => rfl
  | s :: ss, l₂ => by
      simp only [List.cons_append, listJoinMap, List.append_eq,
        listJoinMap_append proj ss l₂, List.append_assoc]

theorem any_listJoinMap (proj : σ → List α) (p : α → Bool) :
    ∀ ss : List σ, (listJoinMap proj ss).any p = ss.any (fun s => (proj s).any p)
  | [] => rfl
  | s :: ss => by
      simp only [listJoinMap, List.any_append, List.any_cons, any_listJoinMap proj p ss]

theorem listJoinMap_updateFirstBy (proj : σ → List α) (p : α → Bool) (f : α → α) (upd : σ → σ)
    (h : ∀ s, proj (upd s) = updateFirstBy p f (proj s)) :
    ∀ ss : List σ,
      listJoinMap proj (updateFirstBy (fun s => (proj s).any p) upd ss) =
        updateFirstBy p f (listJoinMap proj ss)
  | [] => rfl
  | s :: ss => by
      by_cases hs : (proj s).any p = true
      · simp only [updateFirstBy, hs, if_true, listJoinMap, h s]
        rw [updateFirstBy_append_left p f (proj s) (listJoinMap proj ss) hs]
      · have hs' : (proj s).any p = false := Bool.eq_false_iff.mpr hs
        simp only [updateFirstBy, hs, Bool.false_eq_true, if_false, listJoinMap,
          listJoinMap_updateFirstBy proj p f upd h ss]
        rw [updateFirstBy_append_right p f (proj s) (listJoinMap proj ss) hs']

theorem listJoinMap_updateFirstBy_invariant (proj : σ → List α) (cond : σ → Bool) (u : σ → σ)
    (h : ∀ s, proj (u s) = proj s) :
    ∀ ss : List σ, listJoinMap proj (updateFirstBy cond u ss) = listJoinMap proj ss
  | [] => rfl
  | s :: ss => by
      by_cases hs : cond s = true
      · simp only [updateFirstBy, hs, if_true, listJoinMap, h s]
      · simp only [updateFirstBy, hs, Bool.false_eq_true, if_false, listJoinMap,
          listJoinMap_updateFirstBy_invariant proj cond u h ss]

theorem tables_updateTableFirst (db : DbState) (oid : Nat) (f : EntityM → EntityM) :
    (db.updateTableFirst oid f).tables = updateFirstBy (fun t => t.oid == oid) f db.tables := by
  simp only [DbState.tables, DbState.updateTableFirst]
  exact listJoinMap_updateFirstBy (fun s => s.tables) (fun t => t.oid == oid) f
    (fun s => { s with tables := updateFirstBy (fun t => t.oid == oid) f s.tables })
    (fun s => rfl) db.schemas

theorem lookupTable_updateTableFirst_self (db : DbState) (oid : Nat) (f : EntityM → EntityM)
    (hf : ∀ e, (f e).oid = e.oid) :
    (db.updateTableFirst oid f).lookupTable oid = (db.lookupTable oid).map f := by
  simp only [DbState.lookupTable, tables_updateTableFirst]
  exact find?_updateFirstBy_self _ f (fun a => by rw [hf a]) db.tables

theorem lookupTable_updateTableFirst_ne (db : DbState) (oid oid' : Nat) (f : EntityM → EntityM)
    (hne : oid' ≠ oid) (hf : ∀ e, (f e).oid = e.oid) :
    (db.updateTableFirst oid f).lookupTable oid' = db.lookupTable oid' := by
  simp only [DbState.lookupTable, tables_updateTableFirst]
  refine find?_updateFirstBy_of_ne _ _ f (fun a ha => ?_) (fun a => by rw [hf a]) db.tables
  have haoid : a.oid = oid := by simpa using ha
  simp [haoid, Ne.symm hne]

theorem typesIncludingEntities_updateTypeFirst (db : DbState) (p : TypeM → Bool)
    (f : TypeM → TypeM) :
    (db.updateTypeFirst p f).typesIncludingEntities =
      updateFirstBy p f db.typesIncludingEntities := by
  by_cases h : db.schemas.any (fun s => s.typesIncludingEntities.any p) = true
  · simp only [DbState.updateTypeFirst, h, if_true, DbState.typesIncludingEntities,
      listJoinMap_append]
    rw [listJoinMap_updateFirstBy (fun s => s.typesIncludingEntities) p f
      (fun s => { s with typesIncludingEntities := updateFirstBy p f s.typesIncludingEntities })
      (fun s => rfl) db.schemas]
    rw [updateFirstBy_append_left p f _ _ (by rw [any_listJoinMap]; exact h)]
  · have h' : db.schemas.any (fun s => s.typesIncludingEntities.any p) = false :=
      Bool.eq_false_iff.mpr h
    simp only [DbState.updateTypeFirst, h, Bool.false_eq_true, if_false,
      DbState.typesIncludingEntities, listJoinMap_append]
    rw [listJoinMap_updateFirstBy (fun s => s.typesIncludingEntities) p f
      (fun s => { s with typesIncludingEntities := updateFirstBy p f s.typesIncludingEntities })
      (fun s => rfl) db.systemSchemas]
    rw [updateFirstBy_append_right p f _ _ (by rw [any_listJoinMap]; exact h')]

theorem tables_updateTypeFirst (db : DbState) (p : TypeM → Bool) (f : TypeM → TypeM) :
    (db.updateTypeFirst p f).tables = db.tables := by
  by_cases h : db.schemas.any (fun s => s.typesIncludingEntities.any p) = true
  · simp only [DbState.updateTypeFirst, h, if_true, DbState.tables]
    exact listJoinMap_updateFirstBy_invariant (fun s => s.tables)
      (fun s => s.typesIncludingEntities.any p)
      (fun s => { s with typesIncludingEntities := updateFirstBy p f s.typesIncludingEntities })
      (fun s => rfl) db.schemas
  · simp only [DbState.updateTypeFirst, h, Bool.false_eq_true, if_false, DbState.tables]

theorem lookupType_updateTypeFirst_self (db : DbState) (oid : Nat) (f : TypeM → TypeM)
    (hf : ∀ t, (f t).oid = t.oid) :
    (db.updateTypeFirst (fun t => t.oid == oid) f).lookupType oid =
      (db.lookupType oid).map f := by
  simp only [DbState.lookupType, typesIncludingEntities_updateTypeFirst]
  exact find?_updateFirstBy_self _ f (fun a => by rw [hf a]) db.typesIncludingEntities

/-- C3: the claim says every user pattern reaches its `LIKE` / `NOT LIKE`
predicate with a correctly numbered positional parameter.  With
`includeSchemas = ["a"]`, `excludeSchemas = ["b"]` and
`includeSystemSchemas = true`, the two system patterns join the include list
(parameters $2 and $3), yet the exclude clause is numbered
`i + include.length + 1 = $2`, so it binds the system pattern
`information\\_schema` instead of `"b"`, and parameter $4 (`"b"`) is never
referenced by any clause. -/
theorem getSchemas_exclude_parameter_numbering_bug :
    (getSchemasQuery ["a"] ["b"] true).whereClauses =
      ["NOT pg_is_other_temp_schema(oid)", "nspname <> 'pg_toast'",
        "(nspname LIKE $1 OR nspname LIKE $2 OR nspname LIKE $3)",
        "nspname NOT LIKE $2"]
    ∧ (getSchemasQuery ["a"] ["b"] true).parameters =
      ["a", "information\\_schema", "pg\\_%", "b"] :=
  ⟨rfl, rfl⟩

/-- C7: the claim says an owned client connection is closed on every failure
path before `pgStructure` rethrows.  The code has no try/finally: when the
catalog queries fail, the error propagates and `client.end()` is never reached
(second component `false`), even though pgStructure owns the connection and
`keepConnection` is unset.  On the success path the owned connection is
closed, and a caller-supplied connection is never closed. -/
theorem pgStructure_connection_close_paths :
    pgStructureRun {} "database"
        { shouldCloseConnection := true, serverVersionResult := Except.ok "14.0",
          queryResultsResult := Except.error "query failed" } =
      (Except.error "query failed", false)
    ∧ (pgStructureRun {} "database"
        { shouldCloseConnection := true, serverVersionResult := Except.ok "14.0",
          queryResultsResult := Except.ok emptyQueryResults }).snd = true
    ∧ (pgStructureRun {} "database"
        { shouldCloseConnection := false, serverVersionResult := Except.ok "14.0",
          queryResultsResult := Except.ok emptyQueryResults }).snd = false :=
  ⟨rfl, rfl, rfl⟩

/-- C5 counterexample: the claim says a constraint constructed with any of the
five action values (including `SET DEFAULT`) succeeds; but `allowedActions` of
the legacy `Constraint` module lists only four actions, so constructing a
constraint with `onUpdate = "SET DEFAULT"` fails joi validation and throws. -/
theorem legacy_set_default_rejected :
    mkLegacyConstraint { name := "account_fk", onUpdate := some "SET DEFAULT" } =
      Except.error "validation error" :=
  rfl

/-- C5 amended: `onUpdate` / `onDelete` values are obtained from the catalog
letters `a r c n d` as NO ACTION / RESTRICT / CASCADE / SET NULL / SET
DEFAULT, and `matchType` from `f p s` as FULL / PARTIAL / SIMPLE; the legacy
`Constraint` accepts the four actions of its `allowedActions` list
(NO ACTION, CASCADE, SET NULL, RESTRICT) but rejects SET DEFAULT. -/
theorem fk_action_match_letter_maps_amended :
    (actionLetterMap 'a' = some "NO ACTION" ∧ actionLetterMap 'r' = some "RESTRICT"
      ∧ actionLetterMap 'c' = some "CASCADE" ∧ actionLetterMap 'n' = some "SET NULL"
      ∧ actionLetterMap 'd' = some "SET DEFAULT")
    ∧ (matchTypeLetterMap 'f' = some "FULL" ∧ matchTypeLetterMap 'p' = some "PARTIAL"
      ∧ matchTypeLetterMap 's' = some "SIMPLE")
    ∧ exceptIsOk (mkLegacyConstraint { name := "c1", onUpdate := some "NO ACTION" }) = true
    ∧ exceptIsOk (mkLegacyConstraint { name := "c2", onUpdate := some "CASCADE" }) = true
    ∧ exceptIsOk (mkLegacyConstraint { name := "c3", onUpdate := some "SET NULL" }) = true
    ∧ exceptIsOk (mkLegacyConstraint { name := "c4", onUpdate := some "RESTRICT" }) = true
    ∧ exceptIsOk (mkLegacyConstraint { name := "c5", onUpdate := some "SET DEFAULT" }) = false :=
  ⟨⟨rfl, rfl, rfl, rfl, rfl⟩, ⟨rfl, rfl, rfl⟩, rfl, rfl, rfl, rfl, rfl⟩

/-- C9: with `through` present, the legacy `Constraint` initializes
`foreignKeys` / `foreignKeysByName` from the supplied
`throughForeignKeyConstraintToSelf` (the FK toward the near side), not from
`throughForeignKeyConstraint`; without `through`, both start empty. -/
theorem legacy_constraint_through_foreign_keys (args : LegacyConstraintArgs)
    (src : LegacyFkSource)
    (hv : (validAction args.onUpdate && validAction args.onDelete) = true) :
    (args.through = true → args.throughForeignKeyConstraintToSelf = some src →
      mkLegacyConstraint args =
        Except.ok
          { name := args.name, onUpdate := args.onUpdate, onDelete := args.onDelete,
            foreignKeys := src.foreignKeys, foreignKeysByName := src.foreignKeysByName })
    ∧ (args.through = false →
      mkLegacyConstraint args =
        Except.ok
          { name := args.name, onUpdate := args.onUpdate, onDelete := args.onDelete,
            foreignKeys := [], foreignKeysByName := [] }) := by
  constructor
  · intro ht hsrc
    simp only [mkLegacyConstraint, hv, if_true, ht, hsrc]
  · intro ht
    simp only [mkLegacyConstraint, hv, if_true, ht, Bool.false_eq_true, if_false]

/-- Witness for C9: in a cart/product M2M, the constraint built `through` the
join table takes the foreign keys of the to-self constraint (`cart_id`), not
those of `throughForeignKeyConstraint` (`product_id`); without `through` the
lists are empty. -/
theorem legacy_constraint_through_foreign_keys_witness :
    mkLegacyConstraint
        { name := "cart_has_products", through := true,
          throughForeignKeyConstraint :=
            some { foreignKeys := [ColumnM.mk "product_id" 2],
                   foreignKeysByName := [("product_id", ColumnM.mk "product_id" 2)] },
          throughForeignKeyConstraintToSelf :=
            some { foreignKeys := [ColumnM.mk "cart_id" 1],
                   foreignKeysByName := [("cart_id", ColumnM.mk "cart_id" 1)] } } =
      Except.ok
        { name := "cart_has_products", onUpdate := none, onDelete := none,
          foreignKeys := [ColumnM.mk "cart_id" 1],
          foreignKeysByName := [("cart_id", ColumnM.mk "cart_id" 1)] }
    ∧ mkLegacyConstraint { name := "plain_fk" } =
      Except.ok
        { name := "plain_fk", onUpdate := none, onDelete := none,
          foreignKeys := [], foreignKeysByName := [] } :=
  ⟨(legacy_constraint_through_foreign_keys
      { name := "cart_has_products", through := true,
        throughForeignKeyConstraint :=
          some { foreignKeys := [ColumnM.mk "product_id" 2],
                 foreignKeysByName := [("product_id", ColumnM.mk "product_id" 2)] },
        throughForeignKeyConstraintToSelf :=
          some { foreignKeys := [ColumnM.mk "cart_id" 1],
                 foreignKeysByName := [("cart_id", ColumnM.mk "cart_id" 1)] } }
      { foreignKeys := [ColumnM.mk "cart_id" 1],
        foreignKeysByName := [("cart_id", ColumnM.mk "cart_id" 1)] } rfl).1 rfl rfl,
    (legacy_constraint_through_foreign_keys { name := "plain_fk" }
      { foreignKeys := [], foreignKeysByName := [] } rfl).2 rfl⟩

/-- C2: `deserialize` after serialization reproduces the `Db`: structural
equality of everything the snapshot carries (name, serverVersion, config, the
9-tuple of queryResults, and the graph replayed by `addObjects`), with the
naming strategy re-bound by its stored name — a custom naming function object
itself is exactly what the model's `namingName` abstraction excludes, since
only the name survives serialization.  The hypothesis states that `db` was
built with the naming strategy bound by the name recorded in its config,
which is how both `pgStructure` and `deserialize` construct every `Db`. -/
theorem deserialize_serialize_roundtrip (name serverVersion : String) (config : Config)
    (q : QueryResults) (db : DbM)
    (h : buildDbFrom name serverVersion config q config.relationNameFunctions = Except.ok db) :
    deserialize (serializeDb db) = Except.ok db := by
  unfold buildDbFrom at h
  cases hg : addObjects q with
  | error e => rw [hg] at h; exact Except.noConfusion h
  | ok g =>
      rw [hg] at h
      injection h with h'
      subst h'
      unfold deserialize serializeDb buildDbFrom
      simp only [hg]

/-- Witness for C2 at the empty snapshot. -/
theorem deserialize_serialize_roundtrip_witness :
    deserialize
        (serializeDb
          { name := "database", serverVersion := "14.0",
            config := { commentDataToken := "pg-structure", relationNameFunctions := "short",
                        foreignKeyAliasSeparator := ",", foreignKeyAliasTargetFirst := false },
            queryResults := emptyQueryResults, namingName := "short",
            graph := { schemas := [], systemSchemas := [] } }) =
      Except.ok
        { name := "database", serverVersion := "14.0",
          config := { commentDataToken := "pg-structure", relationNameFunctions := "short",
                      foreignKeyAliasSeparator := ",", foreignKeyAliasTargetFirst := false },
          queryResults := emptyQueryResults, namingName := "short",
          graph := { schemas := [], systemSchemas := [] } } :=
  deserialize_serialize_roundtrip "database" "14.0"
    { commentDataToken := "pg-structure", relationNameFunctions := "short",
      foreignKeyAliasSeparator := ",", foreignKeyAliasTargetFirst := false }
    emptyQueryResults _ rfl

/-- C6: a type row's schema is resolved through `systemSchemas` first; only
when absent there is it looked up in the user schemas, where absence is fatal;
the constructed type is appended to the resolved schema's
`typesIncludingEntities`. -/
theorem addTypes_schema_resolution (db : DbState) (row : TypeRow)
    (hkind : typeKindsKnown row.kind = true) :
    (∀ s, db.lookupSystemSchema row.schemaOid = some s →
      ∃ db', addTypeRow db row = Except.ok db'
        ∧ db'.lookupSystemSchema row.schemaOid =
            some { s with typesIncludingEntities := s.typesIncludingEntities ++ [mkType row] }
        ∧ db'.schemas = db.schemas)
    ∧ (∀ s, db.lookupSystemSchema row.schemaOid = none →
        db.lookupSchema row.schemaOid = some s →
      ∃ db', addTypeRow db row = Except.ok db'
        ∧ db'.lookupSchema row.schemaOid =
            some { s with typesIncludingEntities := s.typesIncludingEntities ++ [mkType row] }
        ∧ db'.systemSchemas = db.systemSchemas)
    ∧ (db.lookupSystemSchema row.schemaOid = none →
        db.lookupSchema row.schemaOid = none →
      ∃ e, addTypeRow db row = Except.error e) := by
  refine ⟨fun s hs => ?_, fun s hs hu => ?_, fun hs hu => ?_⟩
  · refine
      ⟨{ db with
          systemSchemas :=
            updateFirstBy (fun t => t.oid == row.schemaOid)
              (fun t => { t with typesIncludingEntities := t.typesIncludingEntities ++ [mkType row] })
              db.systemSchemas },
        by simp only [addTypeRow, hs, hkind, if_true], ?_, rfl⟩
    simp only [DbState.lookupSystemSchema] at hs ⊢
    rw [find?_updateFirstBy_self (fun t => t.oid == row.schemaOid)
      (fun t => { t with typesIncludingEntities := t.typesIncludingEntities ++ [mkType row] })
      (fun a => rfl) db.systemSchemas, hs]
    rfl
  · refine
      ⟨{ db with
          schemas :=
            updateFirstBy (fun t => t.oid == row.schemaOid)
              (fun t => { t with typesIncludingEntities := t.typesIncludingEntities ++ [mkType row] })
              db.schemas },
        by simp only [addTypeRow, hs, hu, hkind, if_true], ?_, rfl⟩
    simp only [DbState.lookupSchema] at hu ⊢
    rw [find?_updateFirstBy_self (fun t => t.oid == row.schemaOid)
      (fun t => { t with typesIncludingEntities := t.typesIncludingEntities ++ [mkType row] })
      (fun a => rfl) db.schemas, hu]
    rfl
  · exact ⟨"NotFound: schema of type row", by simp only [addTypeRow, hs, hu]⟩

/-- Witness for C6: a `pg_catalog` type row resolves through `systemSchemas`
even though a user schema with the same oid is absent, and a row whose schema
oid is unknown to both collections is fatal. -/
theorem addTypes_schema_resolution_witness :
    (∃ db', addTypeRow
        { schemas := [mkSchema (SchemaRow.mk 1 "public")],
          systemSchemas := [mkSchema (SchemaRow.mk 11 "pg_catalog")] }
        { oid := 23, classOid := 0, schemaOid := 11, kind := 'b', name := "int4",
          sqlType := none } = Except.ok db'
      ∧ db'.lookupSystemSchema 11 =
          some { mkSchema (SchemaRow.mk 11 "pg_catalog") with
                 typesIncludingEntities :=
                   (mkSchema (SchemaRow.mk 11 "pg_catalog")).typesIncludingEntities ++
                     [mkType { oid := 23, classOid := 0, schemaOid := 11, kind := 'b',
                               name := "int4", sqlType := none }] }
      ∧ db'.schemas =
          (DbState.mk [mkSchema (SchemaRow.mk 1 "public")]
            [mkSchema (SchemaRow.mk 11 "pg_catalog")]).schemas)
    ∧ (∃ e, addTypeRow
        { schemas := [mkSchema (SchemaRow.mk 1 "public")],
          systemSchemas := [mkSchema (SchemaRow.mk 11 "pg_catalog")] }
        { oid := 77, classOid := 0, schemaOid := 99, kind := 'e', name := "mood",
          sqlType := none } = Except.error e) :=
  ⟨(addTypes_schema_resolution
      { schemas := [mkSchema (SchemaRow.mk 1 "public")],
        systemSchemas := [mkSchema (SchemaRow.mk 11 "pg_catalog")] }
      { oid := 23, classOid := 0, schemaOid := 11, kind := 'b', name := "int4",
        sqlType := none } rfl).1 (mkSchema (SchemaRow.mk 11 "pg_catalog")) rfl,
    ((addTypes_schema_resolution
      { schemas := [mkSchema (SchemaRow.mk 1 "public")],
        systemSchemas := [mkSchema (SchemaRow.mk 11 "pg_catalog")] }
      { oid := 77, classOid := 0, schemaOid := 99, kind := 'e', name := "mood",
        sqlType := none } rfl).2.2 rfl rfl)⟩

theorem drop_head?_eq_get? {α : Type} : ∀ (es : List α) (k : Nat), (es.drop k).head? = es.get? k
  | [], k => by simp
  | _ :: _, 0 => rfl
  | _ :: es, k + 1 => drop_head?_eq_get? es k

theorem buildCAE_eq_specAux (cols : List ColumnM) :
    ∀ (ps : List Nat) (es : List String) (k : Nat),
      buildColumnsAndExpressions cols ps (es.drop k) = specCAEAux cols es ps k
  | [], _, _ => rfl
  | p :: ps, es, k => by
      by_cases hp : p > 0
      · simp only [buildColumnsAndExpressions, specCAEAux, hp, if_true]
        rw [buildCAE_eq_specAux cols ps es k]
      · simp only [buildColumnsAndExpressions, specCAEAux, hp, if_false]
        cases hd : es.drop k with
        | nil =>
            have hg : es.get? k = none := by rw [← drop_head?_eq_get? es k, hd]; rfl
            have hd1 : es.drop (k + 1) = [] := by rw [← List.tail_drop, hd]; rfl
            rw [hg]
            have hrec := buildCAE_eq_specAux cols ps es (k + 1)
            rw [hd1] at hrec
            simp only [Option.map_none', hrec]
        | cons e es' =>
            have hg : es.get? k = some e := by rw [← drop_head?_eq_get? es k, hd]; rfl
            have hd1 : es.drop (k + 1) = es' := by rw [← List.tail_drop, hd]; rfl
            rw [hg]
            have hrec := buildCAE_eq_specAux cols ps es (k + 1)
            rw [hd1] at hrec
            simp only [Option.map_some', hrec]

/-- C4: the shift-based loop of `addIndexes` agrees with the specification's
description everywhere: a position > 0 yields the parent's column with that
attribute number, and the k-th zero position (in walk order) yields element k
of `indexExpressions`, so expressions keep exactly the relative order of
`indexExpressions`. -/
theorem columnsAndExpressions_matches_spec_order (cols : List ColumnM) (ps : List Nat)
    (es : List String) :
    buildColumnsAndExpressions cols ps es = specColumnsAndExpressions cols ps es := by
  have h := buildCAE_eq_specAux cols ps es 0
  rw [List.drop_zero] at h
  exact h

/-- C8: a unique-constraint row stores the resolved backing index in the
constructed constraint, and the `columns` property read off that constraint
delegates to the index's columns collection (same list, same order) — the
constraint keeps no column list of its own. -/
theorem unique_constraint_columns_delegate_to_index (db : DbState) (row : ConstraintRow)
    (T : EntityM) (i : IndexM)
    (hk : row.kind = 'u')
    (ht : db.lookupTable row.tableOid = some T)
    (hi : db.lookupIndex row.indexOid = some i) :
    ∃ db', addConstraintRow db row = Except.ok db'
      ∧ (∃ T', db'.lookupTable row.tableOid = some T'
          ∧ T'.constraints = T.constraints ++ [ConstraintM.uniqueConstraint row.name (some i)])
      ∧ ConstraintM.uniqueColumns (ConstraintM.uniqueConstraint row.name (some i)) =
          some i.columns := by
  refine
    ⟨db.updateTableFirst row.tableOid
        (fun t => { t with constraints := t.constraints ++ [ConstraintM.uniqueConstraint row.name (some i)] }),
      by simp only [addConstraintRow, ht, hk, hi],
      ⟨{ T with constraints := T.constraints ++ [ConstraintM.uniqueConstraint row.name (some i)] },
        ?_, rfl⟩, rfl⟩
  rw [lookupTable_updateTableFirst_self db row.tableOid
    (fun t => { t with constraints := t.constraints ++ [ConstraintM.uniqueConstraint row.name (some i)] })
    (fun e => rfl), ht]
  rfl

/-- Witness for C8: one table with one two-column unique index; the unique
constraint's `columns` read equals the index's column list. -/
theorem unique_constraint_columns_delegate_to_index_witness :
    ∃ db', addConstraintRow
        { schemas :=
            [{ mkSchema (SchemaRow.mk 1 "public") with
               tables :=
                 [{ mkEntity (EntityRow.mk 20 1 'r' "account") with
                    columns := [ColumnM.mk "id" 1, ColumnM.mk "email" 2],
                    indexes :=
                      [{ oid := 30, tableOid := 20, name := "ix_account_email",
                         columnsAndExpressions :=
                           [some (ColumnOrExpression.column (ColumnM.mk "email" 2)),
                             some (ColumnOrExpression.column (ColumnM.mk "id" 1))] }] }] }],
          systemSchemas := [] }
        { name := "account_email_key", kind := 'u', tableOid := 20, indexOid := 30,
          typeOid := 0, constrainedColumnPositions := [], onUpdate := 'a', onDelete := 'a',
          matchType := 's', checkConstraintExpression := "" } = Except.ok db'
      ∧ (∃ T', db'.lookupTable 20 = some T'
          ∧ T'.constraints =
            ({ mkEntity (EntityRow.mk 20 1 'r' "account") with
               columns := [ColumnM.mk "id" 1, ColumnM.mk "email" 2],
               indexes :=
                 [{ oid := 30, tableOid := 20, name := "ix_account_email",
                    columnsAndExpressions :=
                      [some (ColumnOrExpression.column (ColumnM.mk "email" 2)),
                        some (ColumnOrExpression.column (ColumnM.mk "id" 1))] }] } : EntityM).constraints ++
              [ConstraintM.uniqueConstraint "account_email_key"
                (some { oid := 30, tableOid := 20, name := "ix_account_email",
                        columnsAndExpressions :=
                          [some (ColumnOrExpression.column (ColumnM.mk "email" 2)),
                            some (ColumnOrExpression.column (ColumnM.mk "id" 1))] })])
      ∧ ConstraintM.uniqueColumns
          (ConstraintM.uniqueConstraint "account_email_key"
            (some { oid := 30, tableOid := 20, name := "ix_account_email",
                    columnsAndExpressions :=
                      [some (ColumnOrExpression.column (ColumnM.mk "email" 2)),
                        some (ColumnOrExpression.column (ColumnM.mk "id" 1))] })) =
          some [ColumnM.mk "email" 2, ColumnM.mk "id" 1] := by
  have h := unique_constraint_columns_delegate_to_index
    { schemas :=
        [{ mkSchema (SchemaRow.mk 1 "public") with
           tables :=
             [{ mkEntity (EntityRow.mk 20 1 'r' "account") with
                columns := [ColumnM.mk "id" 1, ColumnM.mk "email" 2],
                indexes :=
                  [{ oid := 30, tableOid := 20, name := "ix_account_email",
                     columnsAndExpressions :=
                       [some (ColumnOrExpression.column (ColumnM.mk "email" 2)),
                         some (ColumnOrExpression.column (ColumnM.mk "id" 1))] }] }] }],
      systemSchemas := [] }
    { name := "account_email_key", kind := 'u', tableOid := 20, indexOid := 30,
      typeOid := 0, constrainedColumnPositions := [], onUpdate := 'a', onDelete := 'a',
      matchType := 's', checkConstraintExpression := "" }
    { mkEntity (EntityRow.mk 20 1 'r' "account") with
      columns := [ColumnM.mk "id" 1, ColumnM.mk "email" 2],
      indexes :=
        [{ oid := 30, tableOid := 20, name := "ix_account_email",
           columnsAndExpressions :=
             [some (ColumnOrExpression.column (ColumnM.mk "email" 2)),
               some (ColumnOrExpression.column (ColumnM.mk "id" 1))] }] }
    { oid := 30, tableOid := 20, name := "ix_account_email",
      columnsAndExpressions :=
        [some (ColumnOrExpression.column (ColumnM.mk "email" 2)),
          some (ColumnOrExpression.column (ColumnM.mk "id" 1))] }
    rfl rfl rfl
  exact h

/-- C10: a constraint row whose `tableOid` resolves to no loaded table is
processed only when its `typeOid` resolves and the row kind is `c` (a domain
check constraint is appended to the resolved type); in every other such case
the row is skipped silently — the state is returned unchanged and no error is
raised. -/
theorem addConstraints_tableless_row_behavior (db : DbState) (row : ConstraintRow)
    (ht : db.lookupTable row.tableOid = none) :
    (db.lookupType row.typeOid = none → addConstraintRow db row = Except.ok db)
    ∧ (∀ d, db.lookupType row.typeOid = some d → row.kind ≠ 'c' →
        addConstraintRow db row = Except.ok db)
    ∧ (∀ d, db.lookupType row.typeOid = some d → row.kind = 'c' →
        ∃ db', addConstraintRow db row = Except.ok db'
          ∧ db'.lookupType row.typeOid =
              some { d with checkConstraints :=
                  d.checkConstraints ++ [CheckConstraintM.mk row.name row.checkConstraintExpression] }
          ∧ db'.tables = db.tables) := by
  refine ⟨fun hd => ?_, fun d hd hne => ?_, fun d hd hkc => ?_⟩
  · simp only [addConstraintRow, ht, hd]
  · have hb : (row.kind == 'c') = false := by
      rw [beq_eq_false_iff_ne]
      exact hne
    simp only [addConstraintRow, ht, hd, hb, Bool.false_eq_true, if_false]
  · have hb : (row.kind == 'c') = true := by
      rw [beq_iff_eq]
      exact hkc
    refine
      ⟨db.updateTypeFirst (fun t => t.oid == row.typeOid)
          (fun t => { t with checkConstraints :=
              t.checkConstraints ++ [CheckConstraintM.mk row.name row.checkConstraintExpression] }),
        by simp only [addConstraintRow, ht, hd, hb, if_true], ?_, ?_⟩
    · rw [lookupType_updateTypeFirst_self db row.typeOid
        (fun t => { t with checkConstraints :=
            t.checkConstraints ++ [CheckConstraintM.mk row.name row.checkConstraintExpression] })
        (fun t => rfl), hd]
      rfl
    · exact tables_updateTypeFirst db _ _

/-- Witness for C10: a domain check-constraint row without a loaded table is
added to the domain; a tableless row of kind `f` is skipped silently. -/
theorem addConstraints_tableless_row_behavior_witness :
    (∃ db', addConstraintRow
        { schemas :=
            [{ mkSchema (SchemaRow.mk 1 "public") with
               typesIncludingEntities :=
                 [mkType { oid := 500, classOid := 0, schemaOid := 1, kind := 'd',
                           name := "price", sqlType := some "numeric" }] }],
          systemSchemas := [] }
        { name := "price_nonneg", kind := 'c', tableOid := 900, indexOid := 0, typeOid := 500,
          constrainedColumnPositions := [], onUpdate := 'a', onDelete := 'a', matchType := 's',
          checkConstraintExpression := "VALUE >= 0" } = Except.ok db'
      ∧ db'.lookupType 500 =
          some { mkType { oid := 500, classOid := 0, schemaOid := 1, kind := 'd',
                          name := "price", sqlType := some "numeric" } with
                 checkConstraints :=
                   (mkType { oid := 500, classOid := 0, schemaOid := 1, kind := 'd',
                             name := "price", sqlType := some "numeric" }).checkConstraints ++
                     [CheckConstraintM.mk "price_nonneg" "VALUE >= 0"] }
      ∧ db'.tables =
          (DbState.mk
            [{ mkSchema (SchemaRow.mk 1 "public") with
               typesIncludingEntities :=
                 [mkType { oid := 500, classOid := 0, schemaOid := 1, kind := 'd',
                           name := "price", sqlType := some "numeric" }] }] []).tables)
    ∧ addConstraintRow { schemas := [], systemSchemas := [] }
        { name := "orphan_fk", kind := 'f', tableOid := 900, indexOid := 0, typeOid := 0,
          constrainedColumnPositions := [], onUpdate := 'a', onDelete := 'a', matchType := 's',
          checkConstraintExpression := "" } = Except.ok { schemas := [], systemSchemas := [] } :=
  ⟨(addConstraints_tableless_row_behavior
      { schemas :=
          [{ mkSchema (SchemaRow.mk 1 "public") with
             typesIncludingEntities :=
               [mkType { oid := 500, classOid := 0, schemaOid := 1, kind := 'd',
                         name := "price", sqlType := some "numeric" }] }],
        systemSchemas := [] }
      { name := "price_nonneg", kind := 'c', tableOid := 900, indexOid := 0, typeOid := 500,
        constrainedColumnPositions := [], onUpdate := 'a', onDelete := 'a', matchType := 's',
        checkConstraintExpression := "VALUE >= 0" } rfl).2.2
      (mkType { oid := 500, classOid := 0, schemaOid := 1, kind := 'd',
                name := "price", sqlType := some "numeric" }) rfl rfl,
    (addConstraints_tableless_row_behavior { schemas := [], systemSchemas := [] }
      { name := "orphan_fk", kind := 'f', tableOid := 900, indexOid := 0, typeOid := 0,
        constrainedColumnPositions := [], onUpdate := 'a', onDelete := 'a', matchType := 's',
        checkConstraintExpression := "" } rfl).1 rfl⟩

/-- C1: for a foreign-key constraint row whose owning table resolves: if the
referenced index does not resolve, no FK object is created and the state is
returned unchanged (assembly continues silently); if it does resolve (and the
constrained columns and the referenced table exist, whose absence would be a
fatal error, not a silent skip), exactly one FK object is created and it is
appended — exactly once each — to the owning table's `constraints` and to the
referenced table's `foreignKeysToThis`. -/
theorem addConstraints_fk_row_spec (db : DbState) (row : ConstraintRow) (T : EntityM)
    (hk : row.kind = 'f')
    (ht : db.lookupTable row.tableOid = some T) :
    (db.lookupIndex row.indexOid = none → addConstraintRow db row = Except.ok db)
    ∧ (∀ i cols R, db.lookupIndex row.indexOid = some i →
        resolveConstrainedColumns T row.constrainedColumnPositions = Except.ok cols →
        db.lookupTable i.tableOid = some R →
        ∃ db', addConstraintRow db row = Except.ok db'
          ∧ (∃ T', db'.lookupTable row.tableOid = some T'
              ∧ T'.constraints =
                  T.constraints ++ [ConstraintM.foreignKey (mkForeignKey row i cols)])
          ∧ (∃ R', db'.lookupTable i.tableOid = some R'
              ∧ R'.foreignKeysToThis =
                  R.foreignKeysToThis ++ [mkForeignKey row i cols])) := by
  constructor
  · intro hi
    simp only [addConstraintRow, ht, hk, hi]
  · intro i cols R hi hcols hR
    by_cases hcase : i.tableOid = row.tableOid
    · have hR' : db.lookupTable row.tableOid = some R := by rw [← hcase]; exact hR
      have hTR : T = R := by
        have hsome := ht.symm.trans hR'
        injection hsome
      have hlook1 :
          (db.updateTableFirst row.tableOid
              (fun t => { t with constraints :=
                  t.constraints ++ [ConstraintM.foreignKey (mkForeignKey row i cols)] })).lookupTable
            row.tableOid =
            some { T with constraints :=
                T.constraints ++ [ConstraintM.foreignKey (mkForeignKey row i cols)] } := by
        rw [lookupTable_updateTableFirst_self db row.tableOid
          (fun t => { t with constraints :=
              t.constraints ++ [ConstraintM.foreignKey (mkForeignKey row i cols)] })
          (fun e => rfl), ht]
        rfl
      refine
        ⟨(db.updateTableFirst row.tableOid
            (fun t => { t with constraints :=
                t.constraints ++ [ConstraintM.foreignKey (mkForeignKey row i cols)] })).updateTableFirst
          row.tableOid
          (fun t => { t with foreignKeysToThis :=
              t.foreignKeysToThis ++ [mkForeignKey row i cols] }),
          by simp only [addConstraintRow, ht, hk, hi, hcols, hcase, hlook1], ?_, ?_⟩
      · refine
          ⟨{ { T with constraints :=
                T.constraints ++ [ConstraintM.foreignKey (mkForeignKey row i cols)] } with
              foreignKeysToThis :=
                T.foreignKeysToThis ++ [mkForeignKey row i cols] }, ?_, rfl⟩
        rw [lookupTable_updateTableFirst_self _ row.tableOid
          (fun t => { t with foreignKeysToThis :=
              t.foreignKeysToThis ++ [mkForeignKey row i cols] })
          (fun e => rfl), hlook1]
        rfl
      · refine
          ⟨{ { T with constraints :=
                T.constraints ++ [ConstraintM.foreignKey (mkForeignKey row i cols)] } with
              foreignKeysToThis :=
                T.foreignKeysToThis ++ [mkForeignKey row i cols] }, ?_, ?_⟩
        · rw [hcase, lookupTable_updateTableFirst_self _ row.tableOid
            (fun t => { t with foreignKeysToThis :=
                t.foreignKeysToThis ++ [mkForeignKey row i cols] })
            (fun e => rfl), hlook1]
          rfl
        · rw [← hTR]
    · have hne : i.tableOid ≠ row.tableOid := hcase
      have hlook1 :
          (db.updateTableFirst row.tableOid
              (fun t => { t with constraints :=
                  t.constraints ++ [ConstraintM.foreignKey (mkForeignKey row i cols)] })).lookupTable
            i.tableOid = some R := by
        rw [lookupTable_updateTableFirst_ne db row.tableOid i.tableOid
          (fun t => { t with constraints :=
              t.constraints ++ [ConstraintM.foreignKey (mkForeignKey row i cols)] })
          hne (fun e => rfl)]
        exact hR
      refine
        ⟨(db.updateTableFirst row.tableOid
            (fun t => { t with constraints :=
                t.constraints ++ [ConstraintM.foreignKey (mkForeignKey row i cols)] })).updateTableFirst
          i.tableOid
          (fun t => { t with foreignKeysToThis :=
              t.foreignKeysToThis ++ [mkForeignKey row i cols] }),
          by simp only [addConstraintRow, ht, hk, hi, hcols, hlook1], ?_, ?_⟩
      · refine
          ⟨{ T with constraints :=
              T.constraints ++ [ConstraintM.foreignKey (mkForeignKey row i cols)] }, ?_, rfl⟩
        rw [lookupTable_updateTableFirst_ne _ i.tableOid row.tableOid
          (fun t => { t with foreignKeysToThis :=
              t.foreignKeysToThis ++ [mkForeignKey row i cols] })
          (Ne.symm hne) (fun e => rfl),
          lookupTable_updateTableFirst_self db row.tableOid
          (fun t => { t with constraints :=
              t.constraints ++ [ConstraintM.foreignKey (mkForeignKey row i cols)] })
          (fun e => rfl), ht]
        rfl
      · refine
          ⟨{ R with foreignKeysToThis :=
              R.foreignKeysToThis ++ [mkForeignKey row i cols] }, ?_, rfl⟩
        rw [lookupTable_updateTableFirst_self _ i.tableOid
          (fun t => { t with foreignKeysToThis :=
              t.foreignKeysToThis ++ [mkForeignKey row i cols] })
          (fun e => rfl), hlook1]
        rfl

/-- Witness for C1: an FK row whose index is missing is dropped silently, and
an `order → account` FK row with a resolved index is appended once to
`order.constraints` and once to `account.foreignKeysToThis`. -/
theorem addConstraints_fk_row_spec_witness :
    (addConstraintRow
        { schemas :=
            [{ mkSchema (SchemaRow.mk 1 "public") with
               tables := [mkEntity (EntityRow.mk 21 1 'r' "order")] }],
          systemSchemas := [] }
        { name := "orphan_index_fk", kind := 'f', tableOid := 21, indexOid := 999, typeOid := 0,
          constrainedColumnPositions := [2], onUpdate := 'a', onDelete := 'c', matchType := 's',
          checkConstraintExpression := "" } =
      Except.ok
        { schemas :=
            [{ mkSchema (SchemaRow.mk 1 "public") with
               tables := [mkEntity (EntityRow.mk 21 1 'r' "order")] }],
          systemSchemas := [] })
    ∧ (∃ db', addConstraintRow
          { schemas :=
              [{ mkSchema (SchemaRow.mk 1 "public") with
                 tables :=
                   [{ mkEntity (EntityRow.mk 21 1 'r' "order") with
                      columns := [ColumnM.mk "id" 1, ColumnM.mk "account_id" 2] },
                     { mkEntity (EntityRow.mk 20 1 'r' "account") with
                       columns := [ColumnM.mk "id" 1],
                       indexes :=
                         [{ oid := 30, tableOid := 20, name := "account_pkey",
                            columnsAndExpressions :=
                              [some (ColumnOrExpression.column (ColumnM.mk "id" 1))] }] }] }],
            systemSchemas := [] }
          { name := "order_account_fk", kind := 'f', tableOid := 21, indexOid := 30, typeOid := 0,
            constrainedColumnPositions := [2], onUpdate := 'a', onDelete := 'c', matchType := 's',
            checkConstraintExpression := "" } = Except.ok db'
        ∧ (∃ T', db'.lookupTable 21 = some T'
            ∧ T'.constraints =
                ({ mkEntity (EntityRow.mk 21 1 'r' "order") with
                   columns := [ColumnM.mk "id" 1, ColumnM.mk "account_id" 2] } : EntityM).constraints ++
                  [ConstraintM.foreignKey
                    (mkForeignKey
                      { name := "order_account_fk", kind := 'f', tableOid := 21, indexOid := 30,
                        typeOid := 0, constrainedColumnPositions := [2], onUpdate := 'a',
                        onDelete := 'c', matchType := 's', checkConstraintExpression := "" }
                      { oid := 30, tableOid := 20, name := "account_pkey",
                        columnsAndExpressions :=
                          [some (ColumnOrExpression.column (ColumnM.mk "id" 1))] }
                      [ColumnM.mk "account_id" 2])])
        ∧ (∃ R', db'.lookupTable 20 = some R'
            ∧ R'.foreignKeysToThis =
                ({ mkEntity (EntityRow.mk 20 1 'r' "account") with
                   columns := [ColumnM.mk "id" 1],
                   indexes :=
                     [{ oid := 30, tableOid := 20, name := "account_pkey",
                        columnsAndExpressions :=
                          [some (ColumnOrExpression.column (ColumnM.mk "id" 1))] }] } : EntityM).foreignKeysToThis ++
                  [mkForeignKey
                    { name := "order_account_fk", kind := 'f', tableOid := 21, indexOid := 30,
                      typeOid := 0, constrainedColumnPositions := [2], onUpdate := 'a',
                      onDelete := 'c', matchType := 's', checkConstraintExpression := "" }
                    { oid := 30, tableOid := 20, name := "account_pkey",
                      columnsAndExpressions :=
                        [some (ColumnOrExpression.column (ColumnM.mk "id" 1))] }
                    [ColumnM.mk "account_id" 2]])) := by
  constructor
  · exact (addConstraints_fk_row_spec
      { schemas :=
          [{ mkSchema (SchemaRow.mk 1 "public") with
             tables := [mkEntity (EntityRow.mk 21 1 'r' "order")] }],
        systemSchemas := [] }
      { name := "orphan_index_fk", kind := 'f', tableOid := 21, indexOid := 999, typeOid := 0,
        constrainedColumnPositions := [2], onUpdate := 'a', onDelete := 'c', matchType := 's',
        checkConstraintExpression := "" }
      (mkEntity (EntityRow.mk 21 1 'r' "order")) rfl rfl).1 rfl
  · exact (addConstraints_fk_row_spec
      { schemas :=
          [{ mkSchema (SchemaRow.mk 1 "public") with
             tables :=
               [{ mkEntity (EntityRow.mk 21 1 'r' "order") with
                  columns := [ColumnM.mk "id" 1, ColumnM.mk "account_id" 2] },
                 { mkEntity (EntityRow.mk 20 1 'r' "account") with
                   columns := [ColumnM.mk "id" 1],
                   indexes :=
                     [{ oid := 30, tableOid := 20, name := "account_pkey",
                        columnsAndExpressions :=
                          [some (ColumnOrExpression.column (ColumnM.mk "id" 1))] }] }] }],
        systemSchemas := [] }
      { name := "order_account_fk", kind := 'f', tableOid := 21, indexOid := 30, typeOid := 0,
        constrainedColumnPositions := [2], onUpdate := 'a', onDelete := 'c', matchType := 's',
        checkConstraintExpression := "" }
      { mkEntity (EntityRow.mk 21 1 'r' "order") with
        columns := [ColumnM.mk "id" 1, ColumnM.mk "account_id" 2] } rfl rfl).2
      { oid := 30, tableOid := 20, name := "account_pkey",
        columnsAndExpressions := [some (ColumnOrExpression.column (ColumnM.mk "id" 1))] }
      [ColumnM.mk "account_id" 2]
      { mkEntity (EntityRow.mk 20 1 'r' "account") with
        columns := [ColumnM.mk "id" 1],
        indexes :=
          [{ oid := 30, tableOid := 20, name := "account_pkey",
             columnsAndExpressions :=
               [some (ColumnOrExpression.column (ColumnM.mk "id" 1))] }] }
      rfl rfl rfl
